import Mathlib

/-!
Verification of the BEAR-PONG match server (`src/GameSession.ts`, `src/index.ts`,
`src/types.ts`) against its natural-language specification.

The server state of one match (`class GameSession`) is embedded as the `Session`
structure below; each inbound-command handler and the fixed-rate physics tick
(`updatePhysics`) are embedded as pure functions on `Session`.  JavaScript
numbers are idealised as real numbers; outbound `sendToPlayer` calls are
recorded in an `outbox` list in the order the code emits them.
-/

open Classical

namespace BearPong

/-- The two connected players (`player1` = left, `player2` = right). -/
inductive Player where
  | one
  | two
deriving DecidableEq

/-- Board sides, as reported in `game_over` / `ultimate_activated`. -/
inductive Side where
  | left
  | right
deriving DecidableEq

/-- `UltimateAbilityType` from `types.ts` / `GameSession.ts`. -/
inductive UltimateAbilityType where
  | time_freeze
  | paddle_dash
  | power_hit
deriving DecidableEq

/-- The opponent of a player. -/
def Player.other : Player → Player
  | .one => .two
  | .two => .one

/-- The side of a player (`player1` is `left`). -/
def Player.side : Player → Side
  | .one => .left
  | .two => .right

-- Constants of `GAME_CONFIG` (`types.ts`).
def CANVAS_WIDTH : ℝ := 1280
def CANVAS_HEIGHT : ℝ := 720
def PADDLE_WIDTH : ℝ := 20
def PADDLE_HEIGHT : ℝ := 120
def BALL_SIZE : ℝ := 20
def INITIAL_BALL_SPEED : ℝ := 6
noncomputable def BALL_SPEED_INCREMENT : ℝ := 3 / 10
def MAX_BALL_SPEED : ℝ := 15
def WINNING_SCORE : ℕ := 3
def COUNTDOWN_DURATION : ℤ := 3

/-- Modelled from the spec: the "minimum shrunk height" configuration constant
(`GAME_CONFIG.MIN_PADDLE_HEIGHT`).  The constant's declaration is not among the
provided sources; the code comment says "down to 33% minimum", so we take
one third of `PADDLE_HEIGHT = 120`. -/
def MIN_PADDLE_HEIGHT : ℝ := 40

/-- Modelled from the spec: the "per-hit shrink amount" configuration constant
(`GAME_CONFIG.PADDLE_SHRINK_PER_HIT`).  Its declaration is not among the
provided sources; the spec only requires a fixed positive decrement. -/
def PADDLE_SHRINK_PER_HIT : ℝ := 5

/-- Outbound messages (`sendToPlayer` payloads).  Payload fields that matter to
the claims are kept; the full per-tick state snapshot of `game_state` is not
duplicated in the message. -/
inductive OutMsg where
  | betting_timeout
  | opponent_bet_set (amount : ℤ)
  | opponent_ready
  | final_bet_amount (amount : ℤ)
  | countdown (count : ℤ)
  | game_state
  | ultimate_activated (side : Side) (ability : UltimateAbilityType)
  | game_over (winner : Side) (scoreLeft scoreRight : ℕ) (betAmount : ℤ)
  | opponent_disconnected
  | error (message : String)
deriving DecidableEq

/-- `GameState` (`types.ts`): the per-tick snapshot broadcast to the clients. -/
structure GameState where
  ballX : ℝ
  ballY : ℝ
  ballVelocityX : ℝ
  ballVelocityY : ℝ
  paddle1Y : ℝ
  paddle2Y : ℝ
  paddle1Height : ℝ
  paddle2Height : ℝ
  score1 : ℕ
  score2 : ℕ
  gameStarted : Bool
  countdown : Option ℤ

/-- The mutable fields of `class GameSession`, plus an `outbox` recording every
`sendToPlayer` call (target, message) in program order and a counter of how
many times `start()` has been invoked. -/
structure Session where
  gs : GameState
  countdown : ℤ
  countdownRunning : Bool
  gameLoopRunning : Bool
  player1Bet : ℤ
  player2Bet : ℤ
  player1Ready : Bool
  player2Ready : Bool
  bettingTimerActive : Bool
  finalBetAmount : ℤ
  prevBallX : ℝ
  prevBallY : ℝ
  timeFreezeActive : Bool
  timeFreezeEndTime : ℝ
  ballSpeedMultiplier : ℝ
  player1UsedUltimates : List UltimateAbilityType
  player2UsedUltimates : List UltimateAbilityType
  powerHitPlayer : Option ℕ
  scoreCountdown : ℤ
  scoreCountdownRunning : Bool
  isPaused : Bool
  outbox : List (Player × OutMsg)
  startInvocations : ℕ

/-- Record a `sendToPlayer(ws, msg)` call. -/
def send (p : Player) (m : OutMsg) (s : Session) : Session :=
  { s with outbox := s.outbox ++ [(p, m)] }

/-- The bet of a player. -/
def Session.betOf (s : Session) : Player → ℤ
  | .one => s.player1Bet
  | .two => s.player2Bet

/-- The ready flag of a player. -/
def Session.readyOf (s : Session) : Player → Bool
  | .one => s.player1Ready
  | .two => s.player2Ready

/-- The wager-resolution rule inlined at both resolution sites
(`startBettingLobby` timer callback and `handleReadyToStart`):
if either player bets 0 the final bet is 0, otherwise the minimum. -/
def resolveBet (b1 b2 : ℤ) : ℤ :=
  if b1 = 0 ∨ b2 = 0 then 0 else min b1 b2

/-- `start()`: begin the pre-match countdown (sets `countdownInterval`).
`startInvocations` counts how often this code path runs. -/
def start (s : Session) : Session :=
  { s with countdownRunning := true, startInvocations := s.startInvocations + 1 }

/-- `handleSetBet`: store the bet and notify the opponent. -/
def handleSetBet (p : Player) (amount : ℤ) (s : Session) : Session :=
  let s :=
    match p with
    | .one => { s with player1Bet := amount }
    | .two => { s with player2Bet := amount }
  send p.other (.opponent_bet_set amount) s

/-- `handleReadyToStart`: mark the player ready, notify the opponent, and if
both players are now ready resolve the wager, send `final_bet_amount` to both,
cancel the betting timer and call `start()`. -/
def handleReadyToStart (p : Player) (s : Session) : Session :=
  let s :=
    match p with
    | .one => { s with player1Ready := true }
    | .two => { s with player2Ready := true }
  let s := send p.other .opponent_ready s
  if s.player1Ready ∧ s.player2Ready then
    let amt := resolveBet s.player1Bet s.player2Bet
    let s := { s with finalBetAmount := amt }
    let s := send .one (.final_bet_amount amt) s
    let s := send .two (.final_bet_amount amt) s
    let s := { s with bettingTimerActive := false }
    start s
  else
    s

/-- `cleanup()`: cancel every timer the session owns. -/
def cleanup (s : Session) : Session :=
  { s with gameLoopRunning := false, countdownRunning := false,
           bettingTimerActive := false }

/-- The `startBettingLobby` 30-second timer callback: on expiry with no ready
player notify both of the timeout and tear down; with at least one ready
player resolve the wager, send `final_bet_amount` to both and call `start()`. -/
def bettingTimerFired (s : Session) : Session :=
  let s := { s with bettingTimerActive := false }
  if ¬ s.player1Ready ∧ ¬ s.player2Ready then
    let s := send .one .betting_timeout s
    let s := send .two .betting_timeout s
    cleanup s
  else
    let amt := resolveBet s.player1Bet s.player2Bet
    let s := { s with finalBetAmount := amt }
    let s := send .one (.final_bet_amount amt) s
    let s := send .two (.final_bet_amount amt) s
    start s

/-- `updatePaddlePosition` (the `paddle_move` handler): clamp the requested
center to `[PADDLE_HEIGHT/2, CANVAS_HEIGHT - PADDLE_HEIGHT/2]` and store it. -/
noncomputable def updatePaddlePosition (p : Player) (y : ℝ) (s : Session) : Session :=
  let clampedY := max (PADDLE_HEIGHT / 2) (min (CANVAS_HEIGHT - PADDLE_HEIGHT / 2) y)
  match p with
  | .one => { s with gs := { s.gs with paddle1Y := clampedY } }
  | .two => { s with gs := { s.gs with paddle2Y := clampedY } }

/-- The magnitude of the ball's velocity (`Math.sqrt(vx*vx + vy*vy)`). -/
noncomputable def ballSpeed (s : Session) : ℝ :=
  Real.sqrt (s.gs.ballVelocityX ^ 2 + s.gs.ballVelocityY ^ 2)

/-- The per-`speedUpBall` paddle-shrink step, applied to each paddle's height:
if the height is still above `MIN_PADDLE_HEIGHT`, reduce it by
`PADDLE_SHRINK_PER_HIT`, floored at `MIN_PADDLE_HEIGHT`. -/
noncomputable def shrinkHeight (h : ℝ) : ℝ :=
  if MIN_PADDLE_HEIGHT < h then max MIN_PADDLE_HEIGHT (h - PADDLE_SHRINK_PER_HIT) else h

/-- `speedUpBall`: if the current speed is below `MAX_BALL_SPEED`, scale the
velocity by `1 + BALL_SPEED_INCREMENT`, capping the magnitude at
`MAX_BALL_SPEED` with direction preserved (the code's
`cos/sin (atan2 vy vx) * MAX` equals `v / |v| * MAX`); then shrink both
paddle heights by `PADDLE_SHRINK_PER_HIT`, floored at `MIN_PADDLE_HEIGHT`. -/
noncomputable def speedUpBall (s : Session) : Session :=
  let currentSpeed := Real.sqrt (s.gs.ballVelocityX ^ 2 + s.gs.ballVelocityY ^ 2)
  let gs1 :=
    if currentSpeed < MAX_BALL_SPEED then
      let speedMultiplier := 1 + BALL_SPEED_INCREMENT
      let newVelX := s.gs.ballVelocityX * speedMultiplier
      let newVelY := s.gs.ballVelocityY * speedMultiplier
      let newSpeed := Real.sqrt (newVelX ^ 2 + newVelY ^ 2)
      if newSpeed ≤ MAX_BALL_SPEED then
        { s.gs with ballVelocityX := newVelX, ballVelocityY := newVelY }
      else
        { s.gs with
          ballVelocityX := s.gs.ballVelocityX / currentSpeed * MAX_BALL_SPEED,
          ballVelocityY := s.gs.ballVelocityY / currentSpeed * MAX_BALL_SPEED }
    else s.gs
  let gs2 := { gs1 with paddle1Height := shrinkHeight gs1.paddle1Height }
  let gs3 := { gs2 with paddle2Height := shrinkHeight gs2.paddle2Height }
  { s with gs := gs3 }

-- Paddle edges (`paddle1Left = 50`, `paddle2Left = CANVAS_WIDTH - 50 - PADDLE_WIDTH`).
def paddle1Left : ℝ := 50
def paddle1Right : ℝ := paddle1Left + PADDLE_WIDTH
def paddle2Left : ℝ := CANVAS_WIDTH - 50 - PADDLE_WIDTH
def paddle2Right : ℝ := paddle2Left + PADDLE_WIDTH

/-- The velocity part of the paddle-hit response, shared verbatim by the four
collision blocks of `updatePhysics`: reflect the horizontal component
(`isLeft` chooses the sign), add spin proportional to `hitPos`, clamp the
vertical component, and floor the horizontal magnitude (sign-preserving). -/
noncomputable def bounceVel (isLeft : Bool) (hitPos currentSpeed vx vy : ℝ) : ℝ × ℝ :=
  let vx1 := if isLeft then |vx| else -|vx|
  let spinStrength : ℝ := if 10 ≤ currentSpeed then 2 else 3
  let vy1 := vy + hitPos * spinStrength
  let maxYVel : ℝ := if 10 ≤ currentSpeed then 4 else 6
  let vy2 := max (-maxYVel) (min maxYVel vy1)
  let minXVel : ℝ := if 10 ≤ currentSpeed then currentSpeed * (3 / 4) else currentSpeed * (1 / 2)
  let vx2 := if |vx1| < minXVel then Real.sign vx1 * minXVel else vx1
  (vx2, vy2)

/-- The speed-ramp tail of the hit response: one `speedUpBall`, a second one
on a perfect hit (`|hitPos| ≤ 0.15`), and eight more (then clearing the flag)
when the hitting player's power hit is armed. -/
noncomputable def hitSpeedups (isLeft : Bool) (hitPos : ℝ) (s : Session) : Session :=
  let s := speedUpBall s
  let isPerfectHit := |hitPos| ≤ 15 / 100
  let s := if isPerfectHit then speedUpBall s else s
  if s.powerHitPlayer = some (if isLeft then 1 else 2) then
    { speedUpBall^[8] s with powerHitPlayer := none }
  else s

/-- The complete hit response of `updatePhysics` for one paddle contact:
velocity reflection/spin/clamps via `bounceVel`, repositioning the ball just
outside the paddle, then the speed-ramp tail `hitSpeedups`.  `hitPos` is the
normalized contact offset
(`(crossY - paddleCenter) / (PADDLE_HEIGHT/2)` for the swept test, the same
formula with `ballY` for the emergency check). -/
noncomputable def paddleBounce (isLeft : Bool) (hitPos currentSpeed : ℝ) (s : Session) : Session :=
  let v := bounceVel isLeft hitPos currentSpeed s.gs.ballVelocityX s.gs.ballVelocityY
  let bx := if isLeft then paddle1Right + BALL_SIZE / 2 + 2 else paddle2Left - BALL_SIZE / 2 - 2
  let s := { s with gs :=
    { s.gs with ballVelocityX := v.1, ballVelocityY := v.2, ballX := bx } }
  hitSpeedups isLeft hitPos s

/-- The TIME_FREEZE expiry check at the top of `updatePhysics`. -/
noncomputable def freezeStage (now : ℝ) (s : Session) : Session :=
  if s.timeFreezeActive = true ∧ s.timeFreezeEndTime ≤ now then
    { s with timeFreezeActive := false, ballSpeedMultiplier := 1 }
  else s

/-- Store the previous ball position and integrate the ball by its velocity
scaled by the TIME_FREEZE multiplier. -/
noncomputable def moveStage (s : Session) : Session :=
  let s := { s with prevBallX := s.gs.ballX, prevBallY := s.gs.ballY }
  { s with gs := { s.gs with
      ballX := s.gs.ballX + s.gs.ballVelocityX * s.ballSpeedMultiplier,
      ballY := s.gs.ballY + s.gs.ballVelocityY * s.ballSpeedMultiplier } }

/-- Top/bottom wall bounce: invert the vertical velocity and clamp the ball
back inside the playfield. -/
noncomputable def wallStage (s : Session) : Session :=
  if s.gs.ballY ≤ BALL_SIZE / 2 ∨ CANVAS_HEIGHT - BALL_SIZE / 2 ≤ s.gs.ballY then
    { s with gs := { s.gs with
        ballVelocityY := -s.gs.ballVelocityY,
        ballY := max (BALL_SIZE / 2) (min (CANVAS_HEIGHT - BALL_SIZE / 2) s.gs.ballY) } }
  else s

/-- Left-paddle swept (TIER 1) collision test and response.  Returns the new
state and the `leftPaddleHit` flag. -/
noncomputable def sweptStageLeft (currentSpeed pad : ℝ) (s : Session) : Session × Bool :=
  let paddle1Top := s.gs.paddle1Y - PADDLE_HEIGHT / 2
  let paddle1Bottom := s.gs.paddle1Y + PADDLE_HEIGHT / 2
  if s.gs.ballVelocityX < 0 ∧ paddle1Right < s.prevBallX - BALL_SIZE / 2 ∧
      s.gs.ballX - BALL_SIZE / 2 ≤ paddle1Right + pad then
    let t := (paddle1Right - (s.prevBallX - BALL_SIZE / 2)) / s.gs.ballVelocityX
    let crossY := s.prevBallY + s.gs.ballVelocityY * t
    let minY := paddle1Top - BALL_SIZE / 2
    let maxY := paddle1Bottom + BALL_SIZE / 2
    if minY ≤ crossY ∧ crossY ≤ maxY then
      let hitPos := (crossY - (paddle1Top + paddle1Bottom) / 2) / (PADDLE_HEIGHT / 2)
      (paddleBounce true hitPos currentSpeed s, true)
    else (s, false)
  else (s, false)

/-- Left-paddle emergency (failsafe) overlap check, guarded so it never fires
when the swept test already registered a hit this tick. -/
noncomputable def emergencyStageLeft (currentSpeed : ℝ) (leftPaddleHit : Bool)
    (s : Session) : Session × Bool :=
  let paddle1Top := s.gs.paddle1Y - PADDLE_HEIGHT / 2
  let paddle1Bottom := s.gs.paddle1Y + PADDLE_HEIGHT / 2
  if leftPaddleHit = false ∧ s.gs.ballVelocityX < 0 ∧
      s.gs.ballX - BALL_SIZE / 2 ≤ paddle1Right ∧
      paddle1Left ≤ s.gs.ballX + BALL_SIZE / 2 ∧
      paddle1Top - BALL_SIZE / 2 ≤ s.gs.ballY ∧
      s.gs.ballY ≤ paddle1Bottom + BALL_SIZE / 2 then
    let hitPos := (s.gs.ballY - (paddle1Top + paddle1Bottom) / 2) / (PADDLE_HEIGHT / 2)
    (paddleBounce true hitPos currentSpeed s, true)
  else (s, false)

/-- Right-paddle swept (TIER 1) collision test and response. -/
noncomputable def sweptStageRight (currentSpeed pad : ℝ) (s : Session) : Session × Bool :=
  let paddle2Top := s.gs.paddle2Y - PADDLE_HEIGHT / 2
  let paddle2Bottom := s.gs.paddle2Y + PADDLE_HEIGHT / 2
  if 0 < s.gs.ballVelocityX ∧ s.prevBallX + BALL_SIZE / 2 < paddle2Left ∧
      paddle2Left - pad ≤ s.gs.ballX + BALL_SIZE / 2 then
    let t := (paddle2Left - (s.prevBallX + BALL_SIZE / 2)) / s.gs.ballVelocityX
    let crossY := s.prevBallY + s.gs.ballVelocityY * t
    let minY := paddle2Top - BALL_SIZE / 2
    let maxY := paddle2Bottom + BALL_SIZE / 2
    if minY ≤ crossY ∧ crossY ≤ maxY then
      let hitPos := (crossY - (paddle2Top + paddle2Bottom) / 2) / (PADDLE_HEIGHT / 2)
      (paddleBounce false hitPos currentSpeed s, true)
    else (s, false)
  else (s, false)

/-- Right-paddle emergency (failsafe) overlap check, guarded like the left. -/
noncomputable def emergencyStageRight (currentSpeed : ℝ) (rightPaddleHit : Bool)
    (s : Session) : Session × Bool :=
  let paddle2Top := s.gs.paddle2Y - PADDLE_HEIGHT / 2
  let paddle2Bottom := s.gs.paddle2Y + PADDLE_HEIGHT / 2
  if rightPaddleHit = false ∧ 0 < s.gs.ballVelocityX ∧
      paddle2Left ≤ s.gs.ballX + BALL_SIZE / 2 ∧
      s.gs.ballX - BALL_SIZE / 2 ≤ paddle2Right ∧
      paddle2Top - BALL_SIZE / 2 ≤ s.gs.ballY ∧
      s.gs.ballY ≤ paddle2Bottom + BALL_SIZE / 2 then
    let hitPos := (s.gs.ballY - (paddle2Top + paddle2Bottom) / 2) / (PADDLE_HEIGHT / 2)
    (paddleBounce false hitPos currentSpeed s, true)
  else (s, false)

/-- `endGame`: stop the game loop and send `game_over` (winner, final score,
resolved wager) to both players. -/
def endGame (winner : Side) (s : Session) : Session :=
  let s := { s with gameLoopRunning := false }
  let m := OutMsg.game_over winner s.gs.score1 s.gs.score2 s.finalBetAmount
  let s := send .one m s
  send .two m s

/-- `startScoreCountdown`: pause the game, reset the post-score countdown to 3
and send the initial `countdown` message to both players. -/
def startScoreCountdown (s : Session) : Session :=
  let s := { s with isPaused := true, scoreCountdown := 3, scoreCountdownRunning := true }
  let s := send .one (.countdown 3) s
  send .two (.countdown 3) s

/-- The scoring block at the end of `updatePhysics`: when the ball has fully
crossed a goal edge, increment the opposing score; end the game immediately if
the winning threshold is reached, otherwise start the post-score countdown. -/
noncomputable def scoringStage (s : Session) : Session :=
  if s.gs.ballX ≤ 0 then
    let s := { s with gs := { s.gs with score2 := s.gs.score2 + 1 } }
    if WINNING_SCORE ≤ s.gs.score2 then endGame .right s
    else startScoreCountdown s
  else if CANVAS_WIDTH ≤ s.gs.ballX then
    let s := { s with gs := { s.gs with score1 := s.gs.score1 + 1 } }
    if WINNING_SCORE ≤ s.gs.score1 then endGame .left s
    else startScoreCountdown s
  else s

/-- Which collision responses fired during one tick. -/
structure TickLog where
  sweptLeft : Bool
  emergLeft : Bool
  sweptRight : Bool
  emergRight : Bool

/-- `updatePhysics`: one fixed-timestep tick at wall-clock time `now`.
Mirrors the code's order: early return unless playing, TIME_FREEZE expiry,
integration, wall bounce, speed/padding computation, left swept test, left
emergency check, right swept test, right emergency check, scoring. -/
noncomputable def updatePhysics (now : ℝ) (s : Session) : Session × TickLog :=
  if s.gs.gameStarted = false then (s, ⟨false, false, false, false⟩)
  else if s.isPaused = true then (s, ⟨false, false, false, false⟩)
  else
    let s := freezeStage now s
    let s := moveStage s
    let s := wallStage s
    let currentSpeed := Real.sqrt (s.gs.ballVelocityX ^ 2 + s.gs.ballVelocityY ^ 2)
    let pad := 50 + max 0 ((currentSpeed - INITIAL_BALL_SPEED) * 8)
    let resL := sweptStageLeft currentSpeed pad s
    let resEL := emergencyStageLeft currentSpeed resL.2 resL.1
    let resR := sweptStageRight currentSpeed pad resEL.1
    let resER := emergencyStageRight currentSpeed resR.2 resR.1
    (scoringStage resER.1, ⟨resL.2, resEL.2, resR.2, resER.2⟩)

/-- `activateTimeFreeze`: ball-speed multiplier 0.1 for 4 seconds. -/
noncomputable def activateTimeFreeze (now : ℝ) (s : Session) : Session :=
  { s with timeFreezeActive := true, ballSpeedMultiplier := 1 / 10,
           timeFreezeEndTime := now + 4000 }

/-- `activatePaddleDash`: teleport the invoking player's paddle center to the
ball's current vertical position (no clamping). -/
def activatePaddleDash (p : Player) (s : Session) : Session :=
  match p with
  | .one => { s with gs := { s.gs with paddle1Y := s.gs.ballY } }
  | .two => { s with gs := { s.gs with paddle2Y := s.gs.ballY } }

/-- `activatePowerHit`: arm the one-shot power-hit flag for the player. -/
def activatePowerHit (p : Player) (s : Session) : Session :=
  { s with powerHitPlayer := some (match p with | .one => 1 | .two => 2) }

/-- The used-ultimates set of a player. -/
def Session.usedOf (s : Session) : Player → List UltimateAbilityType
  | .one => s.player1UsedUltimates
  | .two => s.player2UsedUltimates

/-- `handleUseUltimate`: reject with an error (and no state change) if the
player already used this ability kind; otherwise mark it used, execute the
effect and broadcast `ultimate_activated` to both players. -/
noncomputable def handleUseUltimate (p : Player) (kind : UltimateAbilityType)
    (now : ℝ) (s : Session) : Session :=
  if kind ∈ s.usedOf p then
    send p (.error "Ultimate already used!") s
  else
    let s :=
      match p with
      | .one => { s with player1UsedUltimates := kind :: s.player1UsedUltimates }
      | .two => { s with player2UsedUltimates := kind :: s.player2UsedUltimates }
    let s :=
      match kind with
      | .time_freeze => activateTimeFreeze now s
      | .paddle_dash => activatePaddleDash p s
      | .power_hit => activatePowerHit p s
    let s := send .one (.ultimate_activated p.side kind) s
    send .two (.ultimate_activated p.side kind) s

/-- The paddle center of a player. -/
def paddleYOf (s : Session) : Player → ℝ
  | .one => s.gs.paddle1Y
  | .two => s.gs.paddle2Y

/-- The paddle height of a player. -/
def paddleHeightOf (s : Session) : Player → ℝ
  | .one => s.gs.paddle1Height
  | .two => s.gs.paddle2Height

/-- A freshly constructed session (the `GameSession` constructor state, with
the random initial velocity fixed to `(6, 6)` and the betting timer armed). -/
def baseSession : Session where
  gs :=
    { ballX := 640
      ballY := 360
      ballVelocityX := 6
      ballVelocityY := 6
      paddle1Y := 360
      paddle2Y := 360
      paddle1Height := PADDLE_HEIGHT
      paddle2Height := PADDLE_HEIGHT
      score1 := 0
      score2 := 0
      gameStarted := false
      countdown := some COUNTDOWN_DURATION }
  countdown := COUNTDOWN_DURATION
  countdownRunning := false
  gameLoopRunning := false
  player1Bet := 0
  player2Bet := 0
  player1Ready := false
  player2Ready := false
  bettingTimerActive := true
  finalBetAmount := 0
  prevBallX := 0
  prevBallY := 0
  timeFreezeActive := false
  timeFreezeEndTime := 0
  ballSpeedMultiplier := 1
  player1UsedUltimates := []
  player2UsedUltimates := []
  powerHitPlayer := none
  scoreCountdown := 3
  scoreCountdownRunning := false
  isPaused := false
  outbox := []
  startInvocations := 0

/-- A concrete mid-match session: score 2–2, resolved bet 7, ball one unit
past the left goal line, game loop running. -/
def sessMatchPoint : Session :=
  { baseSession with
      gs := { baseSession.gs with ballX := -1, score1 := 2, score2 := 2, gameStarted := true },
      gameLoopRunning := true,
      finalBetAmount := 7 }

/-- A session whose ball sits exactly on the top wall contact line
(`ballY = BALL_SIZE / 2 = 10`), as produced by the wall-collision clamp. -/
def sessBallAtWall : Session :=
  { baseSession with gs := { baseSession.gs with ballY := 10, gameStarted := true } }

/-- A session with the ball moving left horizontally at the maximum speed. -/
def sessFast : Session :=
  { baseSession with
      gs := { baseSession.gs with ballVelocityX := -15, ballVelocityY := 0, gameStarted := true } }

/-- A session with the ball moving diagonally at speed 5 (a 3-4-5 triangle). -/
def sessDiag : Session :=
  { baseSession with
      gs := { baseSession.gs with ballVelocityX := -3, ballVelocityY := 4, gameStarted := true } }

/-- A session with the ball just right of the left paddle's facing edge,
aimed horizontally at the paddle center at the maximum speed. -/
def sessApproach : Session :=
  { baseSession with
      gs := { baseSession.gs with ballX := 85, ballVelocityX := -15, ballVelocityY := 0, gameStarted := true } }

/-! ## Helper lemmas about `speedUpBall` and `shrinkHeight` -/

theorem shrinkHeight_min_le {h : ℝ} (hm : MIN_PADDLE_HEIGHT ≤ h) :
    MIN_PADDLE_HEIGHT ≤ shrinkHeight h := by
  unfold shrinkHeight
  split_ifs with hlt
  · exact le_max_left _ _
  · exact hm

theorem shrinkHeight_eq {h : ℝ}
    (hm : MIN_PADDLE_HEIGHT + PADDLE_SHRINK_PER_HIT ≤ h) :
    shrinkHeight h = h - PADDLE_SHRINK_PER_HIT := by
  have h1 : MIN_PADDLE_HEIGHT < h := by
    norm_num [MIN_PADDLE_HEIGHT, PADDLE_SHRINK_PER_HIT] at hm ⊢
    linarith
  have h2 : MIN_PADDLE_HEIGHT ≤ h - PADDLE_SHRINK_PER_HIT := by
    norm_num [MIN_PADDLE_HEIGHT, PADDLE_SHRINK_PER_HIT] at hm ⊢
    linarith
  unfold shrinkHeight
  rw [if_pos h1, max_eq_right h2]

theorem speedUpBall_paddle1Height (s : Session) :
    (speedUpBall s).gs.paddle1Height = shrinkHeight s.gs.paddle1Height := by
  simp only [speedUpBall]
  split_ifs <;> rfl

theorem speedUpBall_paddle2Height (s : Session) :
    (speedUpBall s).gs.paddle2Height = shrinkHeight s.gs.paddle2Height := by
  simp only [speedUpBall]
  split_ifs <;> rfl

theorem speedUpBall_powerHit (s : Session) :
    (speedUpBall s).powerHitPlayer = s.powerHitPlayer := rfl

theorem speedUpBall_paddle1Y (s : Session) :
    (speedUpBall s).gs.paddle1Y = s.gs.paddle1Y := by
  simp only [speedUpBall]
  split_ifs <;> rfl

theorem speedUpBall_paddle2Y (s : Session) :
    (speedUpBall s).gs.paddle2Y = s.gs.paddle2Y := by
  simp only [speedUpBall]
  split_ifs <;> rfl

theorem iterate_speedUpBall_min_height1 (n : ℕ) (s : Session)
    (hm : MIN_PADDLE_HEIGHT ≤ s.gs.paddle1Height) :
    MIN_PADDLE_HEIGHT ≤ (speedUpBall^[n] s).gs.paddle1Height := by
  induction n generalizing s with
  | zero => simpa using hm
  | succ n ih =>
    rw [Function.iterate_succ_apply]
    exact ih _ (by rw [speedUpBall_paddle1Height]; exact shrinkHeight_min_le hm)

theorem iterate_speedUpBall_min_height2 (n : ℕ) (s : Session)
    (hm : MIN_PADDLE_HEIGHT ≤ s.gs.paddle2Height) :
    MIN_PADDLE_HEIGHT ≤ (speedUpBall^[n] s).gs.paddle2Height := by
  induction n generalizing s with
  | zero => simpa using hm
  | succ n ih =>
    rw [Function.iterate_succ_apply]
    exact ih _ (by rw [speedUpBall_paddle2Height]; exact shrinkHeight_min_le hm)

theorem hitSpeedups_min_height1 (isLeft : Bool) (hitPos : ℝ) (t : Session)
    (hm : MIN_PADDLE_HEIGHT ≤ t.gs.paddle1Height) :
    MIN_PADDLE_HEIGHT ≤ (hitSpeedups isLeft hitPos t).gs.paddle1Height := by
  simp only [hitSpeedups]
  by_cases hc1 : |hitPos| ≤ 15 / 100
  · rw [if_pos hc1]
    by_cases hc2 : (speedUpBall (speedUpBall t)).powerHitPlayer =
        some (if isLeft then 1 else 2)
    · rw [if_pos hc2]
      exact iterate_speedUpBall_min_height1 8 _
        (by rw [speedUpBall_paddle1Height, speedUpBall_paddle1Height]
            exact shrinkHeight_min_le (shrinkHeight_min_le hm))
    · rw [if_neg hc2, speedUpBall_paddle1Height, speedUpBall_paddle1Height]
      exact shrinkHeight_min_le (shrinkHeight_min_le hm)
  · rw [if_neg hc1]
    by_cases hc2 : (speedUpBall t).powerHitPlayer = some (if isLeft then 1 else 2)
    · rw [if_pos hc2]
      exact iterate_speedUpBall_min_height1 8 _
        (by rw [speedUpBall_paddle1Height]
            exact shrinkHeight_min_le hm)
    · rw [if_neg hc2, speedUpBall_paddle1Height]
      exact shrinkHeight_min_le hm

theorem hitSpeedups_min_height2 (isLeft : Bool) (hitPos : ℝ) (t : Session)
    (hm : MIN_PADDLE_HEIGHT ≤ t.gs.paddle2Height) :
    MIN_PADDLE_HEIGHT ≤ (hitSpeedups isLeft hitPos t).gs.paddle2Height := by
  simp only [hitSpeedups]
  by_cases hc1 : |hitPos| ≤ 15 / 100
  · rw [if_pos hc1]
    by_cases hc2 : (speedUpBall (speedUpBall t)).powerHitPlayer =
        some (if isLeft then 1 else 2)
    · rw [if_pos hc2]
      exact iterate_speedUpBall_min_height2 8 _
        (by rw [speedUpBall_paddle2Height, speedUpBall_paddle2Height]
            exact shrinkHeight_min_le (shrinkHeight_min_le hm))
    · rw [if_neg hc2, speedUpBall_paddle2Height, speedUpBall_paddle2Height]
      exact shrinkHeight_min_le (shrinkHeight_min_le hm)
  · rw [if_neg hc1]
    by_cases hc2 : (speedUpBall t).powerHitPlayer = some (if isLeft then 1 else 2)
    · rw [if_pos hc2]
      exact iterate_speedUpBall_min_height2 8 _
        (by rw [speedUpBall_paddle2Height]
            exact shrinkHeight_min_le hm)
    · rw [if_neg hc2, speedUpBall_paddle2Height]
      exact shrinkHeight_min_le hm

theorem hitSpeedups_plain_heights (isLeft : Bool) (hitPos : ℝ) (t : Session)
    (hnp : ¬ |hitPos| ≤ 15 / 100) (hpow : t.powerHitPlayer = none) :
    (hitSpeedups isLeft hitPos t).gs.paddle1Height = shrinkHeight t.gs.paddle1Height ∧
    (hitSpeedups isLeft hitPos t).gs.paddle2Height = shrinkHeight t.gs.paddle2Height := by
  simp only [hitSpeedups]
  rw [if_neg hnp, if_neg (by rw [speedUpBall_powerHit, hpow]; simp)]
  exact ⟨speedUpBall_paddle1Height t, speedUpBall_paddle2Height t⟩

theorem hitSpeedups_perfect_heights (isLeft : Bool) (hitPos : ℝ) (t : Session)
    (hp : |hitPos| ≤ 15 / 100) (hpow : t.powerHitPlayer = none) :
    (hitSpeedups isLeft hitPos t).gs.paddle1Height =
      shrinkHeight (shrinkHeight t.gs.paddle1Height) ∧
    (hitSpeedups isLeft hitPos t).gs.paddle2Height =
      shrinkHeight (shrinkHeight t.gs.paddle2Height) := by
  simp only [hitSpeedups]
  rw [if_pos hp, if_neg (by rw [speedUpBall_powerHit, speedUpBall_powerHit, hpow]; simp)]
  constructor
  · rw [speedUpBall_paddle1Height, speedUpBall_paddle1Height]
  · rw [speedUpBall_paddle2Height, speedUpBall_paddle2Height]

/-! ## Claim C1: wager resolution rule -/

/-- C1: whenever the final wager amount is computed — in `handleReadyToStart`
once both players are ready, or in the betting-window expiry callback with at
least one ready player — if either player's bet is 0 the resulting
`finalBetAmount` is 0, and otherwise it is the minimum of the two bets. -/
theorem wager_resolution_rule (s : Session) (p : Player) :
    (((handleReadyToStart p s).player1Ready ∧ (handleReadyToStart p s).player2Ready) →
      ((s.player1Bet = 0 ∨ s.player2Bet = 0) →
          (handleReadyToStart p s).finalBetAmount = 0) ∧
      (s.player1Bet ≠ 0 → s.player2Bet ≠ 0 →
          (handleReadyToStart p s).finalBetAmount = min s.player1Bet s.player2Bet)) ∧
    ((s.player1Ready ∨ s.player2Ready) →
      ((s.player1Bet = 0 ∨ s.player2Bet = 0) → (bettingTimerFired s).finalBetAmount = 0) ∧
      (s.player1Bet ≠ 0 → s.player2Bet ≠ 0 →
          (bettingTimerFired s).finalBetAmount = min s.player1Bet s.player2Bet)) := by
  constructor
  · intro hred
    cases p <;>
      by_cases h1 : s.player1Ready <;> by_cases h2 : s.player2Ready <;>
        simp_all [handleReadyToStart, send, start, resolveBet]
  · intro hready
    have hcase : ¬ (¬ s.player1Ready ∧ ¬ s.player2Ready) := by
      rcases hready with h | h <;> simp [h]
    simp only [bettingTimerFired, resolveBet, send, start, cleanup]
    rw [if_neg hcase]
    constructor <;> intro hb
    · simp [hb]
    · intro hb2
      simp [hb, hb2]

/-- Witness for C1 at a concrete input: bets 10 and 7, player 1 already ready,
player 2 readies up; the resolved amount is `min 10 7 = 7`. -/
theorem wager_resolution_rule_witness :
    (handleReadyToStart .two
        { baseSession with player1Ready := true, player1Bet := 10, player2Bet := 7
        }).finalBetAmount = 7 := by
  have h := (wager_resolution_rule
    { baseSession with player1Ready := true, player1Bet := 10, player2Bet := 7 } .two).1
  have hready : (handleReadyToStart .two
      { baseSession with player1Ready := true, player1Bet := 10, player2Bet := 7
      }).player1Ready ∧ (handleReadyToStart .two
      { baseSession with player1Ready := true, player1Bet := 10, player2Bet := 7
      }).player2Ready := by
    simp [handleReadyToStart, send, start, baseSession]
  have := (h hready).2 (by norm_num) (by norm_num)
  simpa using this

/-! ## Claim C5: wager finalized exactly once (refuted) -/

/-- Counterexample to C5: with bets 10 / 7 the wager resolves to 7 and
`start()` runs once; a later `set_bet` plus a repeated `ready_to_start`
recompute `finalBetAmount` (now ≠ 7) and run `start()` a second time. -/
theorem wager_refinalized_counterexample :
    (handleReadyToStart .two
        { baseSession with player1Bet := 10, player2Bet := 7, player1Ready := true
        }).finalBetAmount = 7 ∧
    (handleReadyToStart .two
        { baseSession with player1Bet := 10, player2Bet := 7, player1Ready := true
        }).startInvocations = 1 ∧
    (handleReadyToStart .two (handleSetBet .two 20 (handleReadyToStart .two
        { baseSession with player1Bet := 10, player2Bet := 7, player1Ready := true
        }))).finalBetAmount ≠ 7 ∧
    (handleReadyToStart .two (handleSetBet .two 20 (handleReadyToStart .two
        { baseSession with player1Bet := 10, player2Bet := 7, player1Ready := true
        }))).startInvocations = 2 := by
  refine ⟨?_, ?_, ?_, ?_⟩ <;>
    simp [handleReadyToStart, handleSetBet, send, start, resolveBet, baseSession]

/-- C5 as amended: `set_bet` by itself never changes `finalBetAmount`, and a
repeated `ready_to_start` after resolution recomputes the amount from the
*current* bets — so it leaves `finalBetAmount` unchanged only when the bets
have not changed since resolution — and unconditionally re-invokes the
`start()` sequence. -/
theorem wager_refinalize_guarded (s : Session) (p q : Player) (amt : ℤ) :
    (handleSetBet q amt s).finalBetAmount = s.finalBetAmount ∧
    (s.player1Ready = true → s.player2Ready = true →
      s.finalBetAmount = resolveBet s.player1Bet s.player2Bet →
      (handleReadyToStart p s).finalBetAmount = s.finalBetAmount ∧
      (handleReadyToStart p s).startInvocations = s.startInvocations + 1) := by
  constructor
  · cases q <;> simp [handleSetBet, send]
  · intro h1 h2 h3
    cases p <;> simp [handleReadyToStart, send, start, h1, h2, ← h3]

/-- Witness for the amended C5 at a concrete resolved session: bets 10 / 7,
both ready, `finalBetAmount = 7 = resolveBet 10 7`; a repeated
`ready_to_start` keeps the amount at 7 and bumps the start counter. -/
theorem wager_refinalize_guarded_witness :
    (handleReadyToStart .one
        { baseSession with player1Bet := 10, player2Bet := 7,
                           player1Ready := true, player2Ready := true,
                           finalBetAmount := 7, startInvocations := 1
        }).finalBetAmount = 7 ∧
    (handleReadyToStart .one
        { baseSession with player1Bet := 10, player2Bet := 7,
                           player1Ready := true, player2Ready := true,
                           finalBetAmount := 7, startInvocations := 1
        }).startInvocations = 2 := by
  have h := (wager_refinalize_guarded
    { baseSession with player1Bet := 10, player2Bet := 7,
                       player1Ready := true, player2Ready := true,
                       finalBetAmount := 7, startInvocations := 1 }
    .one .one 0).2 rfl rfl (by simp [resolveBet])
  simpa using h

/-! ## Claim C6: abilities are one-shot per player per kind -/

/-- C6: the first `use_ultimate` of a kind by a player marks the kind used,
applies the corresponding effect and broadcasts `ultimate_activated` to both
players; a repeated invocation of the same kind by the same player only sends
an error to the invoker and leaves the session state otherwise unchanged. -/
theorem ultimate_single_use (s : Session) (p : Player) (k : UltimateAbilityType) (now : ℝ) :
    (k ∈ s.usedOf p →
      handleUseUltimate p k now s = send p (.error "Ultimate already used!") s) ∧
    (k ∉ s.usedOf p →
      (handleUseUltimate p k now s).usedOf p = k :: s.usedOf p ∧
      (handleUseUltimate p k now s).outbox =
        s.outbox ++ [(Player.one, .ultimate_activated p.side k),
                     (Player.two, .ultimate_activated p.side k)] ∧
      (k = .time_freeze →
        (handleUseUltimate p k now s).ballSpeedMultiplier = 1 / 10 ∧
        (handleUseUltimate p k now s).timeFreezeActive = true) ∧
      (k = .paddle_dash → paddleYOf (handleUseUltimate p k now s) p = s.gs.ballY) ∧
      (k = .power_hit →
        (handleUseUltimate p k now s).powerHitPlayer =
          some (match p with | .one => 1 | .two => 2))) := by
  constructor
  · intro h
    simp [handleUseUltimate, h]
  · intro h
    cases p <;> cases k <;>
      simp_all [handleUseUltimate, send, activateTimeFreeze, activatePaddleDash,
        activatePowerHit, Session.usedOf, paddleYOf, Player.side]

/-- Witness for C6 at concrete inputs: a player who already consumed
`power_hit` gets only the error on reuse; a fresh `paddle_dash` on the
initial session teleports the paddle to the ball's y (360). -/
theorem ultimate_single_use_witness :
    handleUseUltimate .one .power_hit 0
        { baseSession with player1UsedUltimates := [.power_hit] } =
      send .one (.error "Ultimate already used!")
        { baseSession with player1UsedUltimates := [.power_hit] } ∧
    paddleYOf (handleUseUltimate .one .paddle_dash 0 baseSession) .one = 360 := by
  constructor
  · exact (ultimate_single_use
      { baseSession with player1UsedUltimates := [.power_hit] } .one .power_hit 0).1
      (by simp [Session.usedOf])
  · have h := ((ultimate_single_use baseSession .one .paddle_dash 0).2
      (by simp [Session.usedOf, baseSession])).2.2.2.1 rfl
    simpa [baseSession] using h

/-! ## Claim C4: reaching the winning score ends the game immediately -/

/-- C4: in the scoring block of `updatePhysics`, a goal that brings the
scorer's tally to `WINNING_SCORE` stops the game loop and reports `game_over`
without pausing or starting the post-score countdown; a goal below the
threshold instead enters the score pause (countdown started, loop kept). -/
theorem score_threshold_ends_game (s : Session) :
    (s.gs.ballX ≤ 0 → WINNING_SCORE ≤ s.gs.score2 + 1 →
      (scoringStage s).gameLoopRunning = false ∧
      (scoringStage s).isPaused = s.isPaused ∧
      (scoringStage s).scoreCountdownRunning = s.scoreCountdownRunning ∧
      (scoringStage s).outbox = s.outbox ++
        [(Player.one, .game_over .right s.gs.score1 (s.gs.score2 + 1) s.finalBetAmount),
         (Player.two, .game_over .right s.gs.score1 (s.gs.score2 + 1) s.finalBetAmount)]) ∧
    (s.gs.ballX ≤ 0 → s.gs.score2 + 1 < WINNING_SCORE →
      (scoringStage s).isPaused = true ∧
      (scoringStage s).scoreCountdownRunning = true ∧
      (scoringStage s).gameLoopRunning = s.gameLoopRunning ∧
      (scoringStage s).outbox = s.outbox ++
        [(Player.one, .countdown 3), (Player.two, .countdown 3)]) ∧
    (CANVAS_WIDTH ≤ s.gs.ballX → WINNING_SCORE ≤ s.gs.score1 + 1 →
      (scoringStage s).gameLoopRunning = false ∧
      (scoringStage s).isPaused = s.isPaused ∧
      (scoringStage s).scoreCountdownRunning = s.scoreCountdownRunning ∧
      (scoringStage s).outbox = s.outbox ++
        [(Player.one, .game_over .left (s.gs.score1 + 1) s.gs.score2 s.finalBetAmount),
         (Player.two, .game_over .left (s.gs.score1 + 1) s.gs.score2 s.finalBetAmount)]) ∧
    (CANVAS_WIDTH ≤ s.gs.ballX → s.gs.score1 + 1 < WINNING_SCORE →
      (scoringStage s).isPaused = true ∧
      (scoringStage s).scoreCountdownRunning = true ∧
      (scoringStage s).gameLoopRunning = s.gameLoopRunning ∧
      (scoringStage s).outbox = s.outbox ++
        [(Player.one, .countdown 3), (Player.two, .countdown 3)]) := by
  have hW : ¬ (CANVAS_WIDTH ≤ (0 : ℝ)) := by norm_num [CANVAS_WIDTH]
  refine ⟨?_, ?_, ?_, ?_⟩
  · intro hx hs
    simp [scoringStage, endGame, startScoreCountdown, send, hx, hs, Nat.not_lt.mpr hs]
  · intro hx hs
    simp [scoringStage, endGame, startScoreCountdown, send, hx, Nat.not_le.mpr hs]
  · intro hx hs
    have hx0 : ¬ s.gs.ballX ≤ 0 := by
      intro h0
      exact hW (le_trans hx h0)
    simp [scoringStage, endGame, startScoreCountdown, send, hx0, hx, hs,
      Nat.not_lt.mpr hs]
  · intro hx hs
    have hx0 : ¬ s.gs.ballX ≤ 0 := by
      intro h0
      exact hW (le_trans hx h0)
    simp [scoringStage, endGame, startScoreCountdown, send, hx0, hx,
      Nat.not_le.mpr hs]

/-- Witness for C4 at a concrete input: score 2–2, ball past the left goal
line; player 2's third point ends the game at once (loop stopped, `game_over`
sent, no pause, no post-score countdown). -/
theorem score_threshold_ends_game_witness :
    (scoringStage sessMatchPoint).gameLoopRunning = false ∧
    (scoringStage sessMatchPoint).isPaused = false ∧
    (scoringStage sessMatchPoint).scoreCountdownRunning = false ∧
    (scoringStage sessMatchPoint).outbox =
      [(Player.one, .game_over .right 2 3 7), (Player.two, .game_over .right 2 3 7)] := by
  have h := (score_threshold_ends_game sessMatchPoint).1
    (by norm_num [sessMatchPoint, baseSession])
    (by norm_num [sessMatchPoint, baseSession, WINNING_SCORE])
  obtain ⟨h1, h2, h3, h4⟩ := h
  refine ⟨h1, ?_, ?_, ?_⟩
  · rw [h2]
    simp [sessMatchPoint, baseSession]
  · rw [h3]
    simp [sessMatchPoint, baseSession]
  · rw [h4]
    simp [sessMatchPoint, baseSession]

/-! ## Claim C2: paddle center always clamped (refuted by paddle dash) -/

/-- Counterexample to C2: with the ball resting on the top wall contact line
(`ballY = 10`), the paddle-dash ability relocates the invoking player's paddle
center to 10, which is outside `[PADDLE_HEIGHT/2, CANVAS_HEIGHT -
PADDLE_HEIGHT/2] = [60, 660]` — the dash performs no clamping. -/
theorem paddle_clamp_counterexample :
    paddleYOf (handleUseUltimate .one .paddle_dash 0 sessBallAtWall) .one = 10 ∧
    ¬ PADDLE_HEIGHT / 2 ≤
        paddleYOf (handleUseUltimate .one .paddle_dash 0 sessBallAtWall) .one := by
  have h : paddleYOf (handleUseUltimate .one .paddle_dash 0 sessBallAtWall) .one = 10 := by
    simp [handleUseUltimate, send, activatePaddleDash, Session.usedOf, paddleYOf,
      sessBallAtWall, baseSession]
  refine ⟨h, ?_⟩
  rw [h]
  norm_num [PADDLE_HEIGHT]

/-- C2 as amended: the `paddle_move` handler always clamps the paddle center
into `[PADDLE_HEIGHT/2, CANVAS_HEIGHT - PADDLE_HEIGHT/2]` for every input;
the paddle-dash ability instead copies the ball's vertical position without
clamping, so after a dash the paddle center is only constrained to the ball's
own range `[BALL_SIZE/2, CANVAS_HEIGHT - BALL_SIZE/2]` (when the ball is in
bounds). -/
theorem paddle_clamp_amended (p : Player) (y : ℝ) (s : Session) :
    (PADDLE_HEIGHT / 2 ≤ paddleYOf (updatePaddlePosition p y s) p ∧
      paddleYOf (updatePaddlePosition p y s) p ≤ CANVAS_HEIGHT - PADDLE_HEIGHT / 2) ∧
    paddleYOf (activatePaddleDash p s) p = s.gs.ballY ∧
    (BALL_SIZE / 2 ≤ s.gs.ballY → s.gs.ballY ≤ CANVAS_HEIGHT - BALL_SIZE / 2 →
      BALL_SIZE / 2 ≤ paddleYOf (activatePaddleDash p s) p ∧
      paddleYOf (activatePaddleDash p s) p ≤ CANVAS_HEIGHT - BALL_SIZE / 2) := by
  have hb : PADDLE_HEIGHT / 2 ≤ CANVAS_HEIGHT - PADDLE_HEIGHT / 2 := by
    norm_num [PADDLE_HEIGHT, CANVAS_HEIGHT]
  refine ⟨?_, ?_, ?_⟩
  · cases p <;>
      exact ⟨le_max_left _ _, max_le hb (min_le_left _ _)⟩
  · cases p <;> simp [activatePaddleDash, paddleYOf]
  · intro h1 h2
    cases p <;> simp [activatePaddleDash, paddleYOf, h1, h2]

/-- Witness for the amended C2 at concrete inputs: a `paddle_move` to
`y = -500` clamps to 60, and a dash with the ball at the vertical center (360)
lands inside the ball's range. -/
theorem paddle_clamp_amended_witness :
    paddleYOf (updatePaddlePosition .one (-500) baseSession) .one = 60 ∧
    BALL_SIZE / 2 ≤ paddleYOf (activatePaddleDash .one baseSession) .one := by
  constructor
  · have h := (paddle_clamp_amended .one (-500) baseSession).1
    have : paddleYOf (updatePaddlePosition .one (-500) baseSession) .one = 60 := by
      simp [updatePaddlePosition, paddleYOf]
      norm_num [PADDLE_HEIGHT, CANVAS_HEIGHT]
    exact this
  · exact ((paddle_clamp_amended .one 0 baseSession).2.2
      (by simp [baseSession]; norm_num [BALL_SIZE])
      (by simp [baseSession]; norm_num [BALL_SIZE, CANVAS_HEIGHT])).1

/-! ## Claim C7: paddle shrink per hit (refuted: perfect/power hits shrink more) -/

/-- Counterexample to C7: a perfect hit (`hitPos = 0`) runs `speedUpBall`
twice, so one hit shrinks each paddle from 120 to 110 — two decrements of
`PADDLE_SHRINK_PER_HIT = 5`, not "exactly one decrement per hit". -/
theorem paddle_shrink_counterexample :
    baseSession.gs.paddle1Height = 120 ∧
    (paddleBounce true 0 (ballSpeed baseSession) baseSession).gs.paddle1Height = 110 ∧
    (paddleBounce true 0 (ballSpeed baseSession) baseSession).gs.paddle2Height = 110 ∧
    ¬ ((120 : ℝ) - PADDLE_SHRINK_PER_HIT = 110) := by
  have e1 : shrinkHeight 120 = 115 := by
    rw [shrinkHeight_eq (by norm_num [MIN_PADDLE_HEIGHT, PADDLE_SHRINK_PER_HIT])]
    norm_num [PADDLE_SHRINK_PER_HIT]
  have e2 : shrinkHeight 115 = 110 := by
    rw [shrinkHeight_eq (by norm_num [MIN_PADDLE_HEIGHT, PADDLE_SHRINK_PER_HIT])]
    norm_num [PADDLE_SHRINK_PER_HIT]
  refine ⟨rfl, ?_, ?_, by norm_num [PADDLE_SHRINK_PER_HIT]⟩
  · simp only [paddleBounce]
    refine ((hitSpeedups_perfect_heights _ _ _ (by norm_num) rfl).1).trans ?_
    show shrinkHeight (shrinkHeight (120 : ℝ)) = 110
    rw [e1, e2]
  · simp only [paddleBounce]
    refine ((hitSpeedups_perfect_heights _ _ _ (by norm_num) rfl).2).trans ?_
    show shrinkHeight (shrinkHeight (120 : ℝ)) = 110
    rw [e1, e2]

/-- C7 as amended: each `speedUpBall` invocation shrinks each paddle by
exactly `PADDLE_SHRINK_PER_HIT` while there is room above the minimum, and
heights never drop below `MIN_PADDLE_HEIGHT` through any complete hit
response; but a hit runs `speedUpBall` once only for a plain hit — a perfect
hit shrinks twice and an armed power hit adds eight more shrinks. -/
theorem paddle_shrink_amended (s : Session) (isLeft : Bool) (hitPos cs : ℝ) :
    (MIN_PADDLE_HEIGHT + PADDLE_SHRINK_PER_HIT ≤ s.gs.paddle1Height →
      (speedUpBall s).gs.paddle1Height = s.gs.paddle1Height - PADDLE_SHRINK_PER_HIT) ∧
    (MIN_PADDLE_HEIGHT + PADDLE_SHRINK_PER_HIT ≤ s.gs.paddle2Height →
      (speedUpBall s).gs.paddle2Height = s.gs.paddle2Height - PADDLE_SHRINK_PER_HIT) ∧
    (MIN_PADDLE_HEIGHT ≤ s.gs.paddle1Height →
      MIN_PADDLE_HEIGHT ≤ (paddleBounce isLeft hitPos cs s).gs.paddle1Height) ∧
    (MIN_PADDLE_HEIGHT ≤ s.gs.paddle2Height →
      MIN_PADDLE_HEIGHT ≤ (paddleBounce isLeft hitPos cs s).gs.paddle2Height) ∧
    (¬ |hitPos| ≤ 15 / 100 → s.powerHitPlayer = none →
      MIN_PADDLE_HEIGHT + PADDLE_SHRINK_PER_HIT ≤ s.gs.paddle1Height →
      (paddleBounce isLeft hitPos cs s).gs.paddle1Height =
        s.gs.paddle1Height - PADDLE_SHRINK_PER_HIT) ∧
    (|hitPos| ≤ 15 / 100 → s.powerHitPlayer = none →
      MIN_PADDLE_HEIGHT + 2 * PADDLE_SHRINK_PER_HIT ≤ s.gs.paddle1Height →
      (paddleBounce isLeft hitPos cs s).gs.paddle1Height =
        s.gs.paddle1Height - 2 * PADDLE_SHRINK_PER_HIT) := by
  have hshrink : (0 : ℝ) < PADDLE_SHRINK_PER_HIT := by
    norm_num [PADDLE_SHRINK_PER_HIT]
  refine ⟨?_, ?_, ?_, ?_, ?_, ?_⟩
  · intro hm
    rw [speedUpBall_paddle1Height]
    exact shrinkHeight_eq hm
  · intro hm
    rw [speedUpBall_paddle2Height]
    exact shrinkHeight_eq hm
  · intro hm
    simp only [paddleBounce]
    exact hitSpeedups_min_height1 _ _ _ hm
  · intro hm
    simp only [paddleBounce]
    exact hitSpeedups_min_height2 _ _ _ hm
  · intro hnp hpow hm
    simp only [paddleBounce]
    refine ((hitSpeedups_plain_heights _ _ _ hnp ?_).1).trans ?_
    · exact hpow
    · show shrinkHeight s.gs.paddle1Height = _
      exact shrinkHeight_eq hm
  · intro hp hpow hm
    have hm1 : MIN_PADDLE_HEIGHT + PADDLE_SHRINK_PER_HIT ≤ s.gs.paddle1Height := by
      linarith
    simp only [paddleBounce]
    refine ((hitSpeedups_perfect_heights _ _ _ hp ?_).1).trans ?_
    · exact hpow
    · show shrinkHeight (shrinkHeight s.gs.paddle1Height) = _
      rw [shrinkHeight_eq hm1, shrinkHeight_eq (by linarith)]
      ring

/-- Witness for the amended C7 at a concrete input: a plain (non-perfect,
non-power) hit on the fresh session shrinks the left paddle from 120 to
exactly 115 = 120 − `PADDLE_SHRINK_PER_HIT`. -/
theorem paddle_shrink_amended_witness :
    (paddleBounce true 1 (ballSpeed baseSession) baseSession).gs.paddle1Height = 115 := by
  have h := (paddle_shrink_amended baseSession true 1 (ballSpeed baseSession)).2.2.2.2.1
    (by norm_num) rfl
    (by norm_num [MIN_PADDLE_HEIGHT, PADDLE_SHRINK_PER_HIT, baseSession, PADDLE_HEIGHT])
  rw [h]
  norm_num [baseSession, PADDLE_HEIGHT, PADDLE_SHRINK_PER_HIT]

/-! ## Helper lemmas: paddle positions through the tick stages -/

theorem iterate_speedUpBall_paddle1Y (n : ℕ) (t : Session) :
    (speedUpBall^[n] t).gs.paddle1Y = t.gs.paddle1Y := by
  induction n generalizing t with
  | zero => rfl
  | succ n ih =>
    rw [Function.iterate_succ_apply]
    rw [ih, speedUpBall_paddle1Y]

theorem iterate_speedUpBall_paddle2Y (n : ℕ) (t : Session) :
    (speedUpBall^[n] t).gs.paddle2Y = t.gs.paddle2Y := by
  induction n generalizing t with
  | zero => rfl
  | succ n ih =>
    rw [Function.iterate_succ_apply]
    rw [ih, speedUpBall_paddle2Y]

theorem hitSpeedups_paddle1Y (isLeft : Bool) (hitPos : ℝ) (t : Session) :
    (hitSpeedups isLeft hitPos t).gs.paddle1Y = t.gs.paddle1Y := by
  simp only [hitSpeedups]
  by_cases hc1 : |hitPos| ≤ 15 / 100
  · rw [if_pos hc1]
    by_cases hc2 : (speedUpBall (speedUpBall t)).powerHitPlayer =
        some (if isLeft then 1 else 2)
    · rw [if_pos hc2]
      show (speedUpBall^[8] _).gs.paddle1Y = _
      rw [iterate_speedUpBall_paddle1Y, speedUpBall_paddle1Y, speedUpBall_paddle1Y]
    · rw [if_neg hc2, speedUpBall_paddle1Y, speedUpBall_paddle1Y]
  · rw [if_neg hc1]
    by_cases hc2 : (speedUpBall t).powerHitPlayer = some (if isLeft then 1 else 2)
    · rw [if_pos hc2]
      show (speedUpBall^[8] _).gs.paddle1Y = _
      rw [iterate_speedUpBall_paddle1Y, speedUpBall_paddle1Y]
    · rw [if_neg hc2, speedUpBall_paddle1Y]

theorem hitSpeedups_paddle2Y (isLeft : Bool) (hitPos : ℝ) (t : Session) :
    (hitSpeedups isLeft hitPos t).gs.paddle2Y = t.gs.paddle2Y := by
  simp only [hitSpeedups]
  by_cases hc1 : |hitPos| ≤ 15 / 100
  · rw [if_pos hc1]
    by_cases hc2 : (speedUpBall (speedUpBall t)).powerHitPlayer =
        some (if isLeft then 1 else 2)
    · rw [if_pos hc2]
      show (speedUpBall^[8] _).gs.paddle2Y = _
      rw [iterate_speedUpBall_paddle2Y, speedUpBall_paddle2Y, speedUpBall_paddle2Y]
    · rw [if_neg hc2, speedUpBall_paddle2Y, speedUpBall_paddle2Y]
  · rw [if_neg hc1]
    by_cases hc2 : (speedUpBall t).powerHitPlayer = some (if isLeft then 1 else 2)
    · rw [if_pos hc2]
      show (speedUpBall^[8] _).gs.paddle2Y = _
      rw [iterate_speedUpBall_paddle2Y, speedUpBall_paddle2Y]
    · rw [if_neg hc2, speedUpBall_paddle2Y]

theorem paddleBounce_paddle1Y (isLeft : Bool) (hitPos cs : ℝ) (s : Session) :
    (paddleBounce isLeft hitPos cs s).gs.paddle1Y = s.gs.paddle1Y := by
  simp only [paddleBounce]
  exact hitSpeedups_paddle1Y _ _ _

theorem paddleBounce_paddle2Y (isLeft : Bool) (hitPos cs : ℝ) (s : Session) :
    (paddleBounce isLeft hitPos cs s).gs.paddle2Y = s.gs.paddle2Y := by
  simp only [paddleBounce]
  exact hitSpeedups_paddle2Y _ _ _

theorem freezeStage_paddle1Y (now : ℝ) (s : Session) :
    (freezeStage now s).gs.paddle1Y = s.gs.paddle1Y := by
  simp only [freezeStage]
  split_ifs <;> rfl

theorem freezeStage_paddle2Y (now : ℝ) (s : Session) :
    (freezeStage now s).gs.paddle2Y = s.gs.paddle2Y := by
  simp only [freezeStage]
  split_ifs <;> rfl

theorem moveStage_paddle1Y (s : Session) :
    (moveStage s).gs.paddle1Y = s.gs.paddle1Y := rfl

theorem moveStage_paddle2Y (s : Session) :
    (moveStage s).gs.paddle2Y = s.gs.paddle2Y := rfl

theorem wallStage_paddle1Y (s : Session) :
    (wallStage s).gs.paddle1Y = s.gs.paddle1Y := by
  simp only [wallStage]
  split_ifs <;> rfl

theorem wallStage_paddle2Y (s : Session) :
    (wallStage s).gs.paddle2Y = s.gs.paddle2Y := by
  simp only [wallStage]
  split_ifs <;> rfl

theorem sweptStageLeft_paddle1Y (cs pad : ℝ) (s : Session) :
    (sweptStageLeft cs pad s).1.gs.paddle1Y = s.gs.paddle1Y := by
  simp only [sweptStageLeft]
  split_ifs <;> first | rfl | exact paddleBounce_paddle1Y _ _ _ _

theorem sweptStageLeft_paddle2Y (cs pad : ℝ) (s : Session) :
    (sweptStageLeft cs pad s).1.gs.paddle2Y = s.gs.paddle2Y := by
  simp only [sweptStageLeft]
  split_ifs <;> first | rfl | exact paddleBounce_paddle2Y _ _ _ _

theorem emergencyStageLeft_paddle1Y (cs : ℝ) (hit : Bool) (s : Session) :
    (emergencyStageLeft cs hit s).1.gs.paddle1Y = s.gs.paddle1Y := by
  simp only [emergencyStageLeft]
  split_ifs <;> first | rfl | exact paddleBounce_paddle1Y _ _ _ _

theorem emergencyStageLeft_paddle2Y (cs : ℝ) (hit : Bool) (s : Session) :
    (emergencyStageLeft cs hit s).1.gs.paddle2Y = s.gs.paddle2Y := by
  simp only [emergencyStageLeft]
  split_ifs <;> first | rfl | exact paddleBounce_paddle2Y _ _ _ _

theorem sweptStageRight_paddle1Y (cs pad : ℝ) (s : Session) :
    (sweptStageRight cs pad s).1.gs.paddle1Y = s.gs.paddle1Y := by
  simp only [sweptStageRight]
  split_ifs <;> first | rfl | exact paddleBounce_paddle1Y _ _ _ _

theorem sweptStageRight_paddle2Y (cs pad : ℝ) (s : Session) :
    (sweptStageRight cs pad s).1.gs.paddle2Y = s.gs.paddle2Y := by
  simp only [sweptStageRight]
  split_ifs <;> first | rfl | exact paddleBounce_paddle2Y _ _ _ _

theorem emergencyStageRight_paddle1Y (cs : ℝ) (hit : Bool) (s : Session) :
    (emergencyStageRight cs hit s).1.gs.paddle1Y = s.gs.paddle1Y := by
  simp only [emergencyStageRight]
  split_ifs <;> first | rfl | exact paddleBounce_paddle1Y _ _ _ _

theorem emergencyStageRight_paddle2Y (cs : ℝ) (hit : Bool) (s : Session) :
    (emergencyStageRight cs hit s).1.gs.paddle2Y = s.gs.paddle2Y := by
  simp only [emergencyStageRight]
  split_ifs <;> first | rfl | exact paddleBounce_paddle2Y _ _ _ _

theorem scoringStage_paddle1Y (s : Session) :
    (scoringStage s).gs.paddle1Y = s.gs.paddle1Y := by
  simp only [scoringStage, endGame, startScoreCountdown, send]
  split_ifs <;> rfl

theorem scoringStage_paddle2Y (s : Session) :
    (scoringStage s).gs.paddle2Y = s.gs.paddle2Y := by
  simp only [scoringStage, endGame, startScoreCountdown, send]
  split_ifs <;> rfl

/-! ## Claim C10: physics ticks never move the paddles -/

/-- C10: a physics tick leaves both paddle centers unchanged, and so do the
`set_bet` and `ready_to_start` handlers and every `use_ultimate` other than
the paddle-dash; paddle centers change only through the `paddle_move` handler
and the paddle-dash ability. -/
theorem tick_preserves_paddles (now : ℝ) (s : Session) (q : Player) (amt : ℤ)
    (k : UltimateAbilityType) :
    ((updatePhysics now s).1.gs.paddle1Y = s.gs.paddle1Y ∧
      (updatePhysics now s).1.gs.paddle2Y = s.gs.paddle2Y) ∧
    ((handleSetBet q amt s).gs.paddle1Y = s.gs.paddle1Y ∧
      (handleSetBet q amt s).gs.paddle2Y = s.gs.paddle2Y) ∧
    ((handleReadyToStart q s).gs.paddle1Y = s.gs.paddle1Y ∧
      (handleReadyToStart q s).gs.paddle2Y = s.gs.paddle2Y) ∧
    (k ≠ .paddle_dash →
      (handleUseUltimate q k now s).gs.paddle1Y = s.gs.paddle1Y ∧
      (handleUseUltimate q k now s).gs.paddle2Y = s.gs.paddle2Y) := by
  refine ⟨⟨?_, ?_⟩, ?_, ?_, ?_⟩
  · simp only [updatePhysics]
    split_ifs
    · rfl
    · rfl
    · rw [scoringStage_paddle1Y, emergencyStageRight_paddle1Y, sweptStageRight_paddle1Y,
        emergencyStageLeft_paddle1Y, sweptStageLeft_paddle1Y, wallStage_paddle1Y,
        moveStage_paddle1Y, freezeStage_paddle1Y]
  · simp only [updatePhysics]
    split_ifs
    · rfl
    · rfl
    · rw [scoringStage_paddle2Y, emergencyStageRight_paddle2Y, sweptStageRight_paddle2Y,
        emergencyStageLeft_paddle2Y, sweptStageLeft_paddle2Y, wallStage_paddle2Y,
        moveStage_paddle2Y, freezeStage_paddle2Y]
  · cases q <;> simp [handleSetBet, send]
  · cases q <;> (simp only [handleReadyToStart, send, start]; split_ifs <;> exact ⟨rfl, rfl⟩)
  · intro hk
    cases k
    · cases q <;>
        (simp only [handleUseUltimate, send, activateTimeFreeze]; split_ifs <;> exact ⟨rfl, rfl⟩)
    · exact absurd rfl hk
    · cases q <;>
        (simp only [handleUseUltimate, send, activatePowerHit]; split_ifs <;> exact ⟨rfl, rfl⟩)

/-- Witness for C10 at a concrete input: on the fresh session a physics tick
and a non-dash ultimate both leave the left paddle center at 360. -/
theorem tick_preserves_paddles_witness :
    (updatePhysics 0 baseSession).1.gs.paddle1Y = 360 ∧
    (handleUseUltimate .one .time_freeze 0 baseSession).gs.paddle1Y = 360 := by
  have h := tick_preserves_paddles 0 baseSession .one 0 .time_freeze
  constructor
  · rw [h.1.1]
    rfl
  · rw [(h.2.2.2 (by decide)).1]
    rfl

/-! ## Claim C9: the emergency check never doubles a swept hit -/

theorem emergencyStageLeft_guard (cs : ℝ) (hit : Bool) (s : Session) :
    (hit && (emergencyStageLeft cs hit s).2) = false := by
  cases hit
  · rfl
  · simp only [emergencyStageLeft]
    rw [if_neg (by simp)]
    rfl

theorem emergencyStageRight_guard (cs : ℝ) (hit : Bool) (s : Session) :
    (hit && (emergencyStageRight cs hit s).2) = false := by
  cases hit
  · rfl
  · simp only [emergencyStageRight]
    rw [if_neg (by simp)]
    rfl

/-- C9: within one physics tick and for each paddle, the emergency overlap
check never applies a bounce when the swept test already resolved a hit for
that paddle (the failsafe is guarded on the swept-hit flag). -/
theorem no_double_hit_response (now : ℝ) (s : Session) :
    ((updatePhysics now s).2.sweptLeft && (updatePhysics now s).2.emergLeft) = false ∧
    ((updatePhysics now s).2.sweptRight && (updatePhysics now s).2.emergRight) = false := by
  constructor <;>
  · simp only [updatePhysics]
    split_ifs <;>
      first
        | rfl
        | exact emergencyStageLeft_guard _ _ _
        | exact emergencyStageRight_guard _ _ _

/-! ## Helper lemmas: ball speed through the speed ramp -/

theorem speedUpBall_speed (s : Session) :
    ballSpeed s ≤ ballSpeed (speedUpBall s) ∧
    ballSpeed (speedUpBall s) ≤ max (ballSpeed s) MAX_BALL_SPEED := by
  have h0 : (0 : ℝ) ≤ s.gs.ballVelocityX ^ 2 + s.gs.ballVelocityY ^ 2 := by positivity
  simp only [speedUpBall, ballSpeed, BALL_SPEED_INCREMENT, MAX_BALL_SPEED]
  split_ifs with h1 h2 <;> try dsimp only
  · constructor
    · exact Real.sqrt_le_sqrt (by nlinarith [sq_nonneg s.gs.ballVelocityX, sq_nonneg s.gs.ballVelocityY])
    · exact h2.trans (le_max_right _ _)
  · have hX : 0 < s.gs.ballVelocityX ^ 2 + s.gs.ballVelocityY ^ 2 := by
      rcases lt_or_eq_of_le h0 with h | h
      · exact h
      · exfalso
        apply h2
        rw [show s.gs.ballVelocityX * (1 + 3 / 10) = s.gs.ballVelocityX * (13 / 10) by ring,
          show s.gs.ballVelocityY * (1 + 3 / 10) = s.gs.ballVelocityY * (13 / 10) by ring]
        have hx0 : s.gs.ballVelocityX = 0 := by nlinarith [sq_nonneg s.gs.ballVelocityX, sq_nonneg s.gs.ballVelocityY]
        have hy0 : s.gs.ballVelocityY = 0 := by nlinarith [sq_nonneg s.gs.ballVelocityX, sq_nonneg s.gs.ballVelocityY]
        rw [hx0, hy0]
        norm_num
    have hcs : 0 < Real.sqrt (s.gs.ballVelocityX ^ 2 + s.gs.ballVelocityY ^ 2) :=
      Real.sqrt_pos.mpr hX
    have hcs2 : Real.sqrt (s.gs.ballVelocityX ^ 2 + s.gs.ballVelocityY ^ 2) ^ 2 =
        s.gs.ballVelocityX ^ 2 + s.gs.ballVelocityY ^ 2 := Real.sq_sqrt h0
    have hlt : s.gs.ballVelocityX ^ 2 + s.gs.ballVelocityY ^ 2 < 225 := by
      have := (Real.sqrt_lt' (by norm_num : (0 : ℝ) < 15)).mp h1
      linarith
    have hspeed :
        (s.gs.ballVelocityX / Real.sqrt (s.gs.ballVelocityX ^ 2 + s.gs.ballVelocityY ^ 2)
            * 15) ^ 2 +
          (s.gs.ballVelocityY / Real.sqrt (s.gs.ballVelocityX ^ 2 + s.gs.ballVelocityY ^ 2)
            * 15) ^ 2 = 225 := by
      field_simp
      ring
    rw [hspeed]
    constructor
    · rw [show (225 : ℝ) = 15 ^ 2 by norm_num, Real.sqrt_sq (by norm_num)]
      linarith
    · rw [show (225 : ℝ) = 15 ^ 2 by norm_num, Real.sqrt_sq (by norm_num)]
      exact le_max_right _ _
  · exact ⟨le_refl _, le_max_left _ _⟩

theorem iterate_speedUpBall_speed_le (n : ℕ) (t : Session) :
    ballSpeed (speedUpBall^[n] t) ≤ max (ballSpeed t) MAX_BALL_SPEED := by
  induction n generalizing t with
  | zero => exact le_max_left _ _
  | succ n ih =>
    rw [Function.iterate_succ_apply]
    refine (ih (speedUpBall t)).trans (max_le ?_ (le_max_right _ _))
    exact (speedUpBall_speed t).2

theorem ballSpeed_clearPower (u : Session) :
    ballSpeed { u with powerHitPlayer := none } = ballSpeed u := rfl

theorem hitSpeedups_speed_le (isLeft : Bool) (hitPos : ℝ) (t : Session) :
    ballSpeed (hitSpeedups isLeft hitPos t) ≤ max (ballSpeed t) MAX_BALL_SPEED := by
  have step : ∀ u : Session, ballSpeed (speedUpBall u) ≤ max (ballSpeed u) MAX_BALL_SPEED :=
    fun u => (speedUpBall_speed u).2
  simp only [hitSpeedups]
  by_cases hc1 : |hitPos| ≤ 15 / 100
  · rw [if_pos hc1]
    by_cases hc2 : (speedUpBall (speedUpBall t)).powerHitPlayer =
        some (if isLeft then 1 else 2)
    · rw [if_pos hc2, ballSpeed_clearPower]
      refine (iterate_speedUpBall_speed_le 8 _).trans (max_le ?_ (le_max_right _ _))
      refine (step _).trans (max_le ?_ (le_max_right _ _))
      exact step _
    · rw [if_neg hc2]
      refine (step _).trans (max_le ?_ (le_max_right _ _))
      exact step _
  · rw [if_neg hc1]
    by_cases hc2 : (speedUpBall t).powerHitPlayer = some (if isLeft then 1 else 2)
    · rw [if_pos hc2, ballSpeed_clearPower]
      refine (iterate_speedUpBall_speed_le 8 _).trans (max_le ?_ (le_max_right _ _))
      exact step _
    · rw [if_neg hc2]
      exact step _

theorem speedUpBall_speed_eq_of_ge (t : Session)
    (h : MAX_BALL_SPEED ≤ ballSpeed t) : ballSpeed (speedUpBall t) = ballSpeed t := by
  simp only [ballSpeed] at h
  simp only [speedUpBall, ballSpeed]
  rw [if_neg (not_lt.mpr h)]

theorem real_sign_sq_le_one (x : ℝ) : (Real.sign x) ^ 2 ≤ 1 := by
  rcases Real.sign_apply_eq x with h | h | h <;> rw [h] <;> norm_num

theorem bounceVel_sq_le (isLeft : Bool) (hitPos vx vy : ℝ) :
    (bounceVel isLeft hitPos (Real.sqrt (vx ^ 2 + vy ^ 2)) vx vy).1 ^ 2 +
      (bounceVel isLeft hitPos (Real.sqrt (vx ^ 2 + vy ^ 2)) vx vy).2 ^ 2 ≤
    (vx ^ 2 + vy ^ 2) + 36 := by
  have hX : (0 : ℝ) ≤ vx ^ 2 + vy ^ 2 := by positivity
  simp only [bounceVel]
  set c := Real.sqrt (vx ^ 2 + vy ^ 2) with hc
  set vx1 : ℝ := if isLeft = true then |vx| else -|vx| with hvx1
  set sp : ℝ := if 10 ≤ c then 2 else 3 with hsp
  set my : ℝ := if 10 ≤ c then 4 else 6 with hmy
  set mx : ℝ := if 10 ≤ c then c * (3 / 4) else c * (1 / 2) with hmx
  have hc0 : 0 ≤ c := by rw [hc]; exact Real.sqrt_nonneg _
  have hc2 : c ^ 2 = vx ^ 2 + vy ^ 2 := by
    rw [hc]
    exact Real.sq_sqrt hX
  have h1 : vx1 ^ 2 = vx ^ 2 := by
    rw [hvx1]
    split_ifs <;> simp [sq_abs]
  have hmy0 : 0 ≤ my := by
    rw [hmy]
    split_ifs <;> norm_num
  have hmy36 : my ^ 2 ≤ 36 := by
    rw [hmy]
    split_ifs <;> norm_num
  have hmx2 : mx ^ 2 ≤ vx ^ 2 + vy ^ 2 := by
    rw [hmx]
    split_ifs <;> nlinarith [hc2, sq_nonneg c]
  have hclamp : (max (-my) (min my (vy + hitPos * sp))) ^ 2 ≤ my ^ 2 :=
    sq_le_sq' (le_max_left _ _) (max_le (by linarith) (min_le_left _ _))
  split_ifs with hfl
  · have hs := real_sign_sq_le_one vx1
    have hmul : (Real.sign vx1 * mx) ^ 2 ≤ mx ^ 2 := by
      nlinarith [mul_nonneg (sub_nonneg.mpr hs) (sq_nonneg mx)]
    nlinarith [hclamp, hmy36, hmx2, hmul]
  · nlinarith [hclamp, hmy36, h1, sq_nonneg vy]

/-! ## Claim C3: ball speed after a hit (refuted in both directions) -/

/-- Counterexample to C3.  First hit: ball at exactly the maximum speed 15
moving horizontally; the spin term raises the vertical component and
`speedUpBall` leaves any speed already at/above the cap untouched, so the
speed after the complete response is `√229 > 15`.  Second hit: a diagonal
ball at speed 5 struck at the paddle edge with opposing spin; the spin and
ramp leave it at `√16.9 < 5`, strictly slower than before the hit. -/
theorem hit_speed_counterexample :
    ballSpeed sessFast = MAX_BALL_SPEED ∧
    MAX_BALL_SPEED < ballSpeed (paddleBounce true 1 (ballSpeed sessFast) sessFast) ∧
    ballSpeed (paddleBounce true (-1) (ballSpeed sessDiag) sessDiag) < ballSpeed sessDiag := by
  have h225 : Real.sqrt 225 = 15 := by
    rw [show (225 : ℝ) = 15 ^ 2 by norm_num]
    exact Real.sqrt_sq (by norm_num)
  have hbsF : ballSpeed sessFast = 15 := by
    simp only [ballSpeed, sessFast, baseSession]
    rw [show ((-15 : ℝ)) ^ 2 + (0 : ℝ) ^ 2 = 225 by norm_num, h225]
  have hbsD : ballSpeed sessDiag = 5 := by
    simp only [ballSpeed, sessDiag, baseSession]
    rw [show ((-3 : ℝ)) ^ 2 + (4 : ℝ) ^ 2 = 25 by norm_num,
      show (25 : ℝ) = 5 ^ 2 by norm_num]
    exact Real.sqrt_sq (by norm_num)
  have hv1 : bounceVel true 1 15 (-15) 0 = (15, 2) := by
    simp only [bounceVel]
    norm_num
  have hv2 : bounceVel true (-1) 5 (-3) 4 = (3, 1) := by
    simp only [bounceVel]
    norm_num
  refine ⟨hbsF, ?_, ?_⟩
  · rw [hbsF]
    simp only [paddleBounce, sessFast, baseSession, hv1]
    simp only [hitSpeedups]
    rw [if_neg (show ¬|(1 : ℝ)| ≤ 15 / 100 by norm_num)]
    rw [if_neg (by rw [speedUpBall_powerHit]; simp)]
    rw [speedUpBall_speed_eq_of_ge _ (by
      simp only [ballSpeed, MAX_BALL_SPEED]
      rw [show (15 : ℝ) ^ 2 + (2 : ℝ) ^ 2 = 229 by norm_num]
      exact (Real.le_sqrt (by norm_num) (by norm_num)).mpr (by norm_num))]
    simp only [ballSpeed, MAX_BALL_SPEED]
    rw [show (15 : ℝ) ^ 2 + (2 : ℝ) ^ 2 = 229 by norm_num]
    exact (Real.lt_sqrt (by norm_num)).mpr (by norm_num)
  · rw [hbsD]
    simp only [paddleBounce, sessDiag, baseSession, hv2]
    simp only [hitSpeedups]
    rw [if_neg (show ¬|(-1 : ℝ)| ≤ 15 / 100 by norm_num)]
    rw [if_neg (by rw [speedUpBall_powerHit]; simp)]
    simp only [speedUpBall, ballSpeed]
    rw [if_pos (by
      rw [show (3 : ℝ) ^ 2 + (1 : ℝ) ^ 2 = 10 by norm_num, MAX_BALL_SPEED]
      exact (Real.sqrt_lt' (by norm_num)).mpr (by norm_num))]
    rw [if_pos (by
      rw [show (3 * (1 + BALL_SPEED_INCREMENT) : ℝ) ^ 2 +
          (1 * (1 + BALL_SPEED_INCREMENT) : ℝ) ^ 2 = 169 / 10 by
        rw [BALL_SPEED_INCREMENT]; ring, MAX_BALL_SPEED]
      exact (Real.sqrt_le_left (by norm_num)).mpr (by norm_num))]
    rw [show (3 * (1 + BALL_SPEED_INCREMENT) : ℝ) ^ 2 +
        (1 * (1 + BALL_SPEED_INCREMENT) : ℝ) ^ 2 = 169 / 10 by
      rw [BALL_SPEED_INCREMENT]; ring]
    exact (Real.sqrt_lt' (by norm_num)).mpr (by norm_num)

/-- C3 as amended: the speed-ramp step `speedUpBall` itself never decreases
the speed and never raises it above `max(current, MAX_BALL_SPEED)`; the
complete hit response additionally bounds the outgoing speed by
`max(√(pre² + 36), MAX_BALL_SPEED)` (36 = square of the largest vertical
clamp), but the spin/clamp adjustments can leave the final speed above
`MAX_BALL_SPEED` or below the pre-hit speed. -/
theorem hit_speed_bounds (s : Session) (isLeft : Bool) (hitPos : ℝ) :
    ballSpeed (paddleBounce isLeft hitPos (ballSpeed s) s) ≤
      max (Real.sqrt ((ballSpeed s) ^ 2 + 36)) MAX_BALL_SPEED ∧
    ∀ t : Session, ballSpeed t ≤ ballSpeed (speedUpBall t) ∧
      ballSpeed (speedUpBall t) ≤ max (ballSpeed t) MAX_BALL_SPEED := by
  constructor
  · have h0 : (0 : ℝ) ≤ s.gs.ballVelocityX ^ 2 + s.gs.ballVelocityY ^ 2 := by positivity
    have hcs2 : (ballSpeed s) ^ 2 = s.gs.ballVelocityX ^ 2 + s.gs.ballVelocityY ^ 2 :=
      Real.sq_sqrt h0
    have hb := bounceVel_sq_le isLeft hitPos s.gs.ballVelocityX s.gs.ballVelocityY
    simp only [paddleBounce]
    refine (hitSpeedups_speed_le _ _ _).trans (max_le ?_ (le_max_right _ _))
    refine le_trans ?_ (le_max_left _ _)
    rw [hcs2]
    exact Real.sqrt_le_sqrt hb
  · intro t
    exact speedUpBall_speed t



/-! ## Claim C8: a center-aimed crossing is registered by the swept test -/

/-- C8: on a tick with no time distortion, a leftward ball of any speed up to
the maximum whose straight-line path this tick crosses the left paddle's
facing edge (leading edge beyond it before integration, at or past it after)
at the paddle's center height, without touching the walls, is registered as a
hit by the swept test of `updatePhysics` (no tunneling). -/
theorem swept_center_hit_registers (now : ℝ) (s : Session)
    (hstart : s.gs.gameStarted = true)
    (hpause : s.isPaused = false)
    (hfreeze : s.timeFreezeActive = false)
    (hmult : s.ballSpeedMultiplier = 1)
    (hvx : s.gs.ballVelocityX < 0)
    (hspeed : s.gs.ballVelocityX ^ 2 + s.gs.ballVelocityY ^ 2 ≤ MAX_BALL_SPEED ^ 2)
    (hpaddle : s.gs.paddle1Y = CANVAS_HEIGHT / 2)
    (hbefore : paddle1Right < s.gs.ballX - BALL_SIZE / 2)
    (hafter : s.gs.ballX + s.gs.ballVelocityX - BALL_SIZE / 2 ≤ paddle1Right)
    (hwall1 : BALL_SIZE / 2 < s.gs.ballY + s.gs.ballVelocityY)
    (hwall2 : s.gs.ballY + s.gs.ballVelocityY < CANVAS_HEIGHT - BALL_SIZE / 2)
    (hcenter : s.gs.ballY + s.gs.ballVelocityY *
        ((paddle1Right - (s.gs.ballX - BALL_SIZE / 2)) / s.gs.ballVelocityX) =
      s.gs.paddle1Y) :
    (updatePhysics now s).2.sweptLeft = true := by
  have hA : freezeStage now s = s := by
    simp only [freezeStage]
    rw [if_neg (by simp [hfreeze])]
  have hC : wallStage (moveStage s) = moveStage s := by
    simp only [wallStage, moveStage, hmult, mul_one]
    rw [if_neg (by push_neg; exact ⟨hwall1, hwall2⟩)]
  simp only [updatePhysics]
  rw [if_neg (by rw [hstart]; simp), if_neg (by rw [hpause]; simp)]
  dsimp only
  rw [hA, hC]
  simp only [sweptStageLeft, moveStage, hmult, mul_one]
  split_ifs with h1 h2
  · rfl
  · refine absurd ⟨?_, ?_⟩ h2
    · rw [hcenter]
      simp only [PADDLE_HEIGHT, BALL_SIZE]
      linarith
    · rw [hcenter]
      simp only [PADDLE_HEIGHT, BALL_SIZE]
      linarith
  · refine absurd ⟨hvx, hbefore, ?_⟩ h1
    have hm := le_max_left (0 : ℝ)
      ((Real.sqrt (s.gs.ballVelocityX ^ 2 + s.gs.ballVelocityY ^ 2)
        - INITIAL_BALL_SPEED) * 8)
    linarith [hafter]

/-- Witness for C8 at a concrete input: ball at `x = 85` (leading edge 75,
just beyond the paddle edge at 70), moving left at the maximum speed 15,
aimed dead at the centered paddle; the swept test registers the hit. -/
theorem swept_center_hit_registers_witness :
    (updatePhysics 0 sessApproach).2.sweptLeft = true := by
  apply swept_center_hit_registers
  · rfl
  · rfl
  · rfl
  · rfl
  · show (-15 : ℝ) < 0
    norm_num
  · show (-15 : ℝ) ^ 2 + (0 : ℝ) ^ 2 ≤ MAX_BALL_SPEED ^ 2
    norm_num [MAX_BALL_SPEED]
  · show (360 : ℝ) = CANVAS_HEIGHT / 2
    norm_num [CANVAS_HEIGHT]
  · show paddle1Right < (85 : ℝ) - BALL_SIZE / 2
    norm_num [paddle1Right, paddle1Left, PADDLE_WIDTH, BALL_SIZE]
  · show (85 : ℝ) + (-15) - BALL_SIZE / 2 ≤ paddle1Right
    norm_num [paddle1Right, paddle1Left, PADDLE_WIDTH, BALL_SIZE]
  · show BALL_SIZE / 2 < (360 : ℝ) + 0
    norm_num [BALL_SIZE]
  · show (360 : ℝ) + 0 < CANVAS_HEIGHT - BALL_SIZE / 2
    norm_num [CANVAS_HEIGHT, BALL_SIZE]
  · show (360 : ℝ) + 0 * ((paddle1Right - ((85 : ℝ) - BALL_SIZE / 2)) / (-15)) = 360
    norm_num


end BearPong
